import Mathlib

/-!
Shallow embedding of `finalhandler` (src/index.js): the terminal handler of an
HTTP middleware chain.  The handler closure returned by `finalhandler(req, res,
options)` is modelled by `invoke`; the helper functions `constructHtmlBody`,
`constructTextBody` and `send` are modelled under their source names.  JS
`undefined` string values are modelled by `Option String` (with `jsStr`
performing the JS string coercion `'' + undefined = "undefined"`), and JS
truthiness of the numeric status fields by `≠ 0` on `Nat`.
-/

namespace Finalhandler

/-- Node's `http.STATUS_CODES` table: status code to canonical reason phrase.
`none` models an absent entry (JS `undefined`). -/
def STATUS_CODES : Nat → Option String
  | 100 => some "Continue"
  | 101 => some "Switching Protocols"
  | 102 => some "Processing"
  | 103 => some "Early Hints"
  | 200 => some "OK"
  | 201 => some "Created"
  | 202 => some "Accepted"
  | 203 => some "Non-Authoritative Information"
  | 204 => some "No Content"
  | 205 => some "Reset Content"
  | 206 => some "Partial Content"
  | 207 => some "Multi-Status"
  | 208 => some "Already Reported"
  | 226 => some "IM Used"
  | 300 => some "Multiple Choices"
  | 301 => some "Moved Permanently"
  | 302 => some "Found"
  | 303 => some "See Other"
  | 304 => some "Not Modified"
  | 305 => some "Use Proxy"
  | 307 => some "Temporary Redirect"
  | 308 => some "Permanent Redirect"
  | 400 => some "Bad Request"
  | 401 => some "Unauthorized"
  | 402 => some "Payment Required"
  | 403 => some "Forbidden"
  | 404 => some "Not Found"
  | 405 => some "Method Not Allowed"
  | 406 => some "Not Acceptable"
  | 407 => some "Proxy Authentication Required"
  | 408 => some "Request Timeout"
  | 409 => some "Conflict"
  | 410 => some "Gone"
  | 411 => some "Length Required"
  | 412 => some "Precondition Failed"
  | 413 => some "Payload Too Large"
  | 414 => some "URI Too Long"
  | 415 => some "Unsupported Media Type"
  | 416 => some "Range Not Satisfiable"
  | 417 => some "Expectation Failed"
  | 418 => some "I\x27m a Teapot"
  | 421 => some "Misdirected Request"
  | 422 => some "Unprocessable Entity"
  | 423 => some "Locked"
  | 424 => some "Failed Dependency"
  | 425 => some "Too Early"
  | 426 => some "Upgrade Required"
  | 428 => some "Precondition Required"
  | 429 => some "Too Many Requests"
  | 431 => some "Request Header Fields Too Large"
  | 451 => some "Unavailable For Legal Reasons"
  | 500 => some "Internal Server Error"
  | 501 => some "Not Implemented"
  | 502 => some "Bad Gateway"
  | 503 => some "Service Unavailable"
  | 504 => some "Gateway Timeout"
  | 505 => some "HTTP Version Not Supported"
  | 506 => some "Variant Also Negotiates"
  | 507 => some "Insufficient Storage"
  | 508 => some "Loop Detected"
  | 509 => some "Bandwidth Limit Exceeded"
  | 510 => some "Not Extended"
  | 511 => some "Network Authentication Required"
  | _ => none

/-- JS string coercion of a possibly-`undefined` string: `'' + undefined`
yields `"undefined"`. -/
def jsStr : Option String → String
  | some s => s
  | none => "undefined"

/-- One character of the `escape-html` package: chars 34 `"`, 38 `&`,
39 apostrophe, 60 `<`, 62 `>` become their HTML entities. -/
def escapeChar (c : Char) : List Char :=
  if c.toNat = 34 then ('&' :: 'q' :: 'u' :: 'o' :: 't' :: ';' :: [])
  else if c.toNat = 38 then ('&' :: 'a' :: 'm' :: 'p' :: ';' :: [])
  else if c.toNat = 39 then ('&' :: '#' :: '3' :: '9' :: ';' :: [])
  else if c.toNat = 60 then ('&' :: 'l' :: 't' :: ';' :: [])
  else if c.toNat = 62 then ('&' :: 'g' :: 't' :: ';' :: [])
  else (c :: [])

/-- Character-list form of `escapeHtml` from the `escape-html` package. -/
def escapeList : List Char → List Char
  | [] => []
  | c :: rest => escapeChar c ++ escapeList rest

/-- `escapeHtml` from the `escape-html` package, as used by src/index.js. -/
def escapeHtml (s : String) : String := String.mk (escapeList s.data)

/-- `.replace(/\n/g, '<br>')`: global single-character replacement, so plain
left-to-right character traversal. -/
def replaceNl : List Char → List Char
  | [] => []
  | c :: rest =>
    if c = '\n' then '<' :: 'b' :: 'r' :: '>' :: replaceNl rest
    else c :: replaceNl rest

/-- `.replace(/  /g, ' &nbsp;')`: global two-space replacement; JS regex
replacement is left-to-right and non-overlapping (the scan continues after
each match). -/
def replaceDbl : List Char → List Char
  | ' ' :: ' ' :: rest =>
      ' ' :: '&' :: 'n' :: 'b' :: 's' :: 'p' :: ';' :: replaceDbl rest
  | c :: rest => c :: replaceDbl rest
  | [] => []

/-- A rendered body: the `Buffer` contents (as the string whose UTF-8
encoding is the byte payload) plus the media-type tag set on it. -/
structure BodyPayload where
  data : String
  type : String
deriving DecidableEq, Repr

/-- `constructHtmlBody(status, message)` from src/index.js. -/
def constructHtmlBody (status : Nat) (message : String) : BodyPayload :=
  let msg := String.mk (replaceDbl (replaceNl (escapeList message.data)))
  let html := "<!doctype html>\n"
    ++ "<html lang=en>\n"
    ++ "<head>\n"
    ++ "<meta charset=utf-8>\n"
    ++ "<title>" ++ escapeHtml (jsStr (STATUS_CODES status)) ++ "</title>\n"
    ++ "</head>\n"
    ++ "<body>\n"
    ++ msg ++ "\n"
    ++ "</body>\n"
  { data := html, type := "text/html; charset=utf-8" }

/-- `constructTextBody(status, message)` from src/index.js. -/
def constructTextBody (_status : Nat) (message : String) : BodyPayload :=
  { data := message ++ "\n", type := "text/plain; charset=utf-8" }

/-- Result of `accepts(req).types('html', 'text')`: `html`, `text`, or `false`
(no acceptable type).  The switch in src/index.js sends everything but `html`
to the text renderer. -/
inductive NegKind where
  | html
  | text
  | neither
deriving DecidableEq, Repr

/-- Request handle: the fields of `req` the handler reads.  `finished` models
`onFinished.isFinished(req)`; `negotiated` models the content-negotiation
capability's answer for this request. -/
structure Req where
  method : String
  url : String
  originalUrl : Option String
  finished : Bool
  negotiated : NegKind
deriving DecidableEq, Repr

/-- Response handle: the fields of `res` the handler reads.  `headerSent`
models `res._header` truthiness. -/
structure Res where
  statusCode : Nat
  headerSent : Bool
deriving DecidableEq, Repr

/-- Error signal: numeric fields model JS truthiness by `≠ 0` (absent or
falsy is 0); `stack` is `err.stack` (`none` = absent, and the empty string is
falsy in `err.stack || String(err)`); `toStr` is `String(err)`. -/
structure Err where
  statusCode : Nat := 0
  status : Nat := 0
  stack : Option String := none
  toStr : String := ""
deriving DecidableEq, Repr

/-- Handler construction options: whether an `onerror` callback was supplied,
and the `stacktrace` flag (default false). -/
structure Options where
  onerror : Bool := false
  stacktrace : Bool := false
deriving DecidableEq, Repr

/-- `req.originalUrl || req.url` (empty string is falsy in JS). -/
def origOrUrl (req : Req) : String :=
  match req.originalUrl with
  | some s => if s = "" then req.url else s
  | none => req.url

/-- Status resolution for the error path, src/index.js lines 71-85:
`err.statusCode` is respected first, then `err.status` (overwriting), then
a falsy or sub-400 result is forced to 500. -/
def errStatus (currentStatus : Nat) (e : Err) : Nat :=
  let s1 := if e.statusCode ≠ 0 then e.statusCode else currentStatus
  let s2 := if e.status ≠ 0 then e.status else s1
  if s2 = 0 ∨ s2 < 400 then 500 else s2

/-- `err.stack || String(err)` (empty stack string is falsy). -/
def stackOrString (e : Err) : String :=
  match e.stack with
  | some s => if s = "" then e.toStr else s
  | none => e.toStr

/-- Message resolution for the error path, src/index.js lines 87-90: the
stack (or string form) when `stacktrace` is set, else the reason-phrase
table entry for the already-resolved status (possibly `undefined`). -/
def errMsg (opts : Options) (status : Nat) (e : Err) : Option String :=
  if opts.stacktrace then some (stackOrString e) else STATUS_CODES status

/-- The headers and terminal write performed by `write()` inside `send`:
status code, `X-Content-Type-Options`, `Content-Type`, `Content-Length`
(byte length of the rendered buffer), and the bytes passed to `res.end`
(none for HEAD). -/
structure WriteRec where
  status : Nat
  xContentTypeOptions : String
  contentType : String
  contentLength : Nat
  bodyWritten : String
deriving DecidableEq, Repr

/-- The `write()` closure of `send` in src/index.js lines 191-207. -/
def writeAction (req : Req) (status : Nat) (body : BodyPayload) : WriteRec :=
  { status := status
  , xContentTypeOptions := "nosniff"
  , contentType := body.type
  , contentLength := body.data.utf8ByteSize
  , bodyWritten := if req.method = "HEAD" then "" else body.data }

/-- What `send` does: either run `write` immediately, or unpipe the request,
register `write` as the one-shot `onFinished` callback and resume the
request stream. -/
structure SendResult where
  immediate : Option WriteRec
  unpiped : Bool
  registered : Option WriteRec
  resumed : Bool
deriving DecidableEq, Repr

/-- `send(req, res, status, body)` from src/index.js lines 190-220. -/
def send (req : Req) (status : Nat) (body : BodyPayload) : SendResult :=
  if req.finished then
    { immediate := some (writeAction req status body)
    , unpiped := false, registered := none, resumed := false }
  else
    { immediate := none
    , unpiped := true
    , registered := some (writeAction req status body)
    , resumed := true }

/-- The single write a `SendResult` carries, on whichever path. -/
def SendResult.theWrite (r : SendResult) : Option WriteRec :=
  match r.immediate with
  | some w => some w
  | none => r.registered

/-- A deferred `onerror(err, req, res)` call: `defer(onerror, err, req, res)`
schedules it for a later scheduling turn, never running it synchronously
inside the handler invocation. -/
structure OnerrorCall where
  err : Err
  req : Req
  res : Res
deriving DecidableEq, Repr

/-- The synchronous effect of one handler invocation: nothing (404 after
headers sent), destroying the request socket, or handing a body to `send`. -/
inductive Effect where
  | noop
  | destroySocket
  | respond (sr : SendResult)
deriving DecidableEq, Repr

/-- Full outcome of one handler invocation: the deferred callback queue plus
the synchronous effect. -/
structure InvokeResult where
  deferred : List OnerrorCall
  effect : Effect
deriving DecidableEq, Repr

/-- The handler closure returned by `finalhandler(req, res, options)`,
src/index.js lines 58-128, applied to an optional error. -/
def invoke (opts : Options) (req : Req) (res : Res) (err : Option Err) :
    InvokeResult :=
  if err.isNone && res.headerSent then { deferred := [], effect := .noop }
  else
    let status : Nat :=
      match err with
      | some e => errStatus res.statusCode e
      | none => 404
    let msg : Option String :=
      match err with
      | some e => errMsg opts status e
      | none => some ("Cannot " ++ req.method ++ " " ++ origOrUrl req)
    let deferred : List OnerrorCall :=
      match err with
      | some e =>
          if opts.onerror then ({ err := e, req := req, res := res } :: [])
          else []
      | none => []
    if res.headerSent then { deferred := deferred, effect := .destroySocket }
    else
      let body :=
        match req.negotiated with
        | .html => constructHtmlBody status (jsStr msg)
        | _ => constructTextBody status (jsStr msg)
      { deferred := deferred, effect := .respond (send req status body) }

/-- The effective explicit status carried by an error value, following the
source's precedence: `err.status` if truthy, else `err.statusCode` if
truthy, else none. -/
def effExplicit (e : Err) : Option Nat :=
  if e.status ≠ 0 then some e.status
  else if e.statusCode ≠ 0 then some e.statusCode
  else none

/-- The status set by the (unique) write of an invocation, if it responds. -/
def writtenStatus (r : InvokeResult) : Option Nat :=
  match r.effect with
  | .respond sr => Option.map WriteRec.status sr.theWrite
  | _ => none

/-- The body bytes passed to `res.end` by the (unique) write of an
invocation, if it responds. -/
def writtenBody (r : InvokeResult) : Option String :=
  match r.effect with
  | .respond sr => Option.map WriteRec.bodyWritten sr.theWrite
  | _ => none

/-- Test fixture: an already-drained plain-text GET request for /missing. -/
def reqGetMissing : Req :=
  { method := "GET", url := "/missing", originalUrl := none
  , finished := true, negotiated := .text }

/-- Test fixture: an already-drained HEAD request negotiated to HTML. -/
def reqHead : Req :=
  { method := "HEAD", url := "/x", originalUrl := none
  , finished := true, negotiated := .html }

/-- Test fixture: a fresh response, no headers sent, default status 200. -/
def resFresh : Res := { statusCode := 200, headerSent := false }

/-- Test fixture: a response whose headers have already been flushed. -/
def resSent : Res := { statusCode := 200, headerSent := true }

/-- String concatenation is associative (via the underlying char lists). -/
theorem strAppendAssoc (a b c : String) : a ++ b ++ c = a ++ (b ++ c) :=
  String.ext (by simp [String.data_append, List.append_assoc])

/-- `errStatus` reads only the two numeric status fields of the error. -/
theorem errStatus_eq_of_fields (cs : Nat) (e1 e2 : Err)
    (h1 : e1.statusCode = e2.statusCode) (h2 : e1.status = e2.status) :
    errStatus cs e1 = errStatus cs e2 := by
  unfold errStatus
  rw [h1, h2]

/-- Claim C1: for every invocation reaching the send step, exactly one write
of status, headers and body occurs, and only once the request stream is
finished: if the request is already finished the write happens immediately
(no unpipe, no callback, no resume); otherwise the request is unpiped, the
write is registered as the one-shot finished callback, and the request is
resumed so it can reach the finished state. -/
theorem c1_send_write_once_after_finished (req : Req) (status : Nat)
    (body : BodyPayload) :
    (send req status body).theWrite = some (writeAction req status body) ∧
    (req.finished = true →
      send req status body =
        { immediate := some (writeAction req status body)
        , unpiped := false, registered := none, resumed := false }) ∧
    (req.finished = false →
      send req status body =
        { immediate := none, unpiped := true
        , registered := some (writeAction req status body), resumed := true }) := by
  cases hf : req.finished <;> simp [send, SendResult.theWrite, hf]

/-- Claim C1 witness: the already-finished branch at a concrete request. -/
theorem c1_send_write_once_after_finished_witness :
    send reqGetMissing 404 (constructTextBody 404 "Cannot GET /missing") =
      { immediate := some (writeAction reqGetMissing 404
          (constructTextBody 404 "Cannot GET /missing"))
      , unpiped := false, registered := none, resumed := false } :=
  (c1_send_write_once_after_finished reqGetMissing 404
    (constructTextBody 404 "Cannot GET /missing")).2.1 rfl

/-- Claim C2 counterexample: with `statusCode = 503` and `status = 502` both
truthy, the resolved status (also as observed on the written response) is
502 — the `status` field's value — not the `statusCode` field's 503, because
the source checks `err.statusCode` first but then lets `err.status`
overwrite it. -/
theorem c2_statusCode_priority_counterexample :
    errStatus 200 { statusCode := 503, status := 502 } = 502 ∧
    errStatus 200 { statusCode := 503, status := 502 } ≠ 503 ∧
    writtenStatus (invoke {} reqGetMissing resFresh
      (some { statusCode := 503, status := 502 })) = some 502 := by decide

/-- Claim C2 amended: when the error's `status` field is truthy and at least
400, the resolved status equals the `status` field's value regardless of
`statusCode`: `statusCode` is checked first but `status` is checked second
and overwrites it, so `status` takes priority when both are present. -/
theorem c2_status_field_priority (cs : Nat) (e : Err)
    (hs : e.status ≠ 0) (h4 : 400 ≤ e.status) :
    errStatus cs e = e.status := by
  simp [errStatus, hs]
  omega

/-- Claim C2 amended witness: both fields truthy, `status` wins. -/
theorem c2_status_field_priority_witness :
    errStatus 200 { statusCode := 503, status := 502 } = 502 :=
  c2_status_field_priority 200 { statusCode := 503, status := 502 }
    (by decide) (by decide)

/-- Claim C3 counterexample: an error with no explicit status field does not
always resolve to 500 — when the response's current status is already 404,
the resolved status (also as observed on the written response) is 404. -/
theorem c3_absent_status_counterexample :
    errStatus 404 ({} : Err) = 404 ∧
    errStatus 404 ({} : Err) ≠ 500 ∧
    writtenStatus (invoke {} reqGetMissing
      { statusCode := 404, headerSent := false } (some {})) = some 404 := by decide

/-- Claim C3 amended: with an error signal, if the effective explicit status
(the `status` field if truthy, else `statusCode` if truthy) is at least 400
the resolved status equals it; if it is truthy but below 400 the resolved
status is 500; if it is absent or zero, the resolved status is 500 when the
response's current status is zero or below 400, and the current status
otherwise. -/
theorem c3_error_status_resolution (cs : Nat) (e : Err) :
    (∀ v, effExplicit e = some v →
      (400 ≤ v → errStatus cs e = v) ∧ (v < 400 → errStatus cs e = 500)) ∧
    (effExplicit e = none →
      errStatus cs e = if cs = 0 ∨ cs < 400 then 500 else cs) := by
  unfold effExplicit errStatus
  by_cases h1 : e.status = 0 <;> by_cases h2 : e.statusCode = 0 <;>
    simp [h1, h2] <;> omega

/-- Claim C3 amended witness: explicit status 403 resolves to 403. -/
theorem c3_error_status_resolution_witness :
    errStatus 200 { status := 403 } = 403 :=
  ((c3_error_status_resolution 200 { status := 403 }).1 403 (by decide)).1
    (by decide)

/-- Claim C4: with no error signal and headers not sent, the resolved status
is 404 and the message is "Cannot " + method + " " + URL, preferring the
original URL when present and non-empty; in particular, with default
configuration, no error, and a plain-text GET request for /missing, the
response status is 404 and the body is exactly "Cannot GET /missing"
followed by a newline. -/
theorem c4_not_found_message :
    (∀ (opts : Options) (req : Req) (res : Res), res.headerSent = false →
      writtenStatus (invoke opts req res none) = some 404) ∧
    (∀ (opts : Options) (req : Req) (res : Res),
      res.headerSent = false → req.negotiated = NegKind.text →
      (invoke opts req res none).effect =
        .respond (send req 404 (constructTextBody 404
          ("Cannot " ++ req.method ++ " " ++ origOrUrl req)))) ∧
    (∀ (req : Req) (u : String), req.originalUrl = some u → u ≠ "" →
      origOrUrl req = u) ∧
    writtenStatus (invoke {} reqGetMissing resFresh none) = some 404 ∧
    writtenBody (invoke {} reqGetMissing resFresh none) =
      some "Cannot GET /missing\n" := by
  refine ⟨?_, ?_, ?_, by decide, by decide⟩
  · intro opts req res h
    cases hf : req.finished <;> cases hn : req.negotiated <;>
      simp [invoke, writtenStatus, h, hf, hn, send, SendResult.theWrite,
        writeAction]
  · intro opts req res h hn
    simp [invoke, h, hn, jsStr]
  · intro req u hu hne
    simp [origOrUrl, hu, hne]

/-- Claim C4 witness: the concrete GET /missing scenario. -/
theorem c4_not_found_message_witness :
    writtenStatus (invoke {} reqGetMissing resFresh none) = some 404 :=
  c4_not_found_message.1 {} reqGetMissing resFresh rfl

/-- Claim C5: if headers were already sent, an invocation with no error
signal is a complete no-op (no write, no deferred callback, no state
change), and an invocation with an error signal destroys the transport
socket without attempting any header or body write. -/
theorem c5_headers_sent (opts : Options) (req : Req) (res : Res) :
    (res.headerSent = true →
      invoke opts req res none = { deferred := [], effect := .noop }) ∧
    (∀ e : Err, res.headerSent = true →
      (invoke opts req res (some e)).effect = .destroySocket) := by
  constructor
  · intro h
    simp [invoke, h]
  · intro e h
    simp [invoke, h]

/-- Claim C5 witness: concrete no-op and destroy cases. -/
theorem c5_headers_sent_witness :
    invoke {} reqGetMissing resSent none = { deferred := [], effect := .noop } :=
  (c5_headers_sent {} reqGetMissing resSent).1 rfl

/-- Claim C6: with the stacktrace option disabled (the default), the
error-path message is exactly the reason-phrase table entry for the resolved
status and is independent of the error's detail: two invocations differing
only in the error's detail (stack and string form) but agreeing on the
status fields produce identical synchronous effects, hence identical bodies.
With the option enabled, the message is the error's stack text verbatim, or
its string conversion when no (non-empty) stack exists. -/
theorem c6_stacktrace_detail (opts : Options) :
    (opts.stacktrace = false →
      (∀ (req : Req) (res : Res) (e1 e2 : Err),
        e1.statusCode = e2.statusCode → e1.status = e2.status →
        (invoke opts req res (some e1)).effect =
          (invoke opts req res (some e2)).effect) ∧
      (∀ (status : Nat) (e : Err), errMsg opts status e = STATUS_CODES status)) ∧
    (opts.stacktrace = true →
      (∀ (status : Nat) (e : Err),
        errMsg opts status e = some (stackOrString e)) ∧
      (∀ (e : Err) (s : String), e.stack = some s → s ≠ "" →
        stackOrString e = s) ∧
      (∀ e : Err, e.stack = none → stackOrString e = e.toStr)) := by
  constructor
  · intro hst
    constructor
    · intro req res e1 e2 h1 h2
      have hs : errStatus res.statusCode e1 = errStatus res.statusCode e2 :=
        errStatus_eq_of_fields res.statusCode e1 e2 h1 h2
      cases hh : res.headerSent <;> simp [invoke, errMsg, hst, hh, hs]
    · intro status e
      simp [errMsg, hst]
  · intro hst
    refine ⟨?_, ?_, ?_⟩
    · intro status e
      simp [errMsg, hst]
    · intro e s hstk hne
      simp [stackOrString, hstk, hne]
    · intro e hstk
      simp [stackOrString, hstk]

/-- Claim C6 witness: two errors with the same status fields but different
detail produce the same effect under the default configuration. -/
theorem c6_stacktrace_detail_witness :
    (invoke {} reqGetMissing resFresh
        (some { status := 500, stack := some "secret stack" })).effect =
      (invoke {} reqGetMissing resFresh
        (some { status := 500, toStr := "other detail" })).effect :=
  ((c6_stacktrace_detail {}).1 rfl).1 reqGetMissing resFresh
    { status := 500, stack := some "secret stack" }
    { status := 500, toStr := "other detail" } rfl rfl

/-- Claim C7: for every status with a canonical reason phrase and every
message, the HTML body is the exact document shell — doctype, html lang=en,
head with charset meta and a title holding the escaped phrase, and a body
element holding the message with ampersands, quotes and angle brackets
HTML-escaped, newlines turned into br tags and double spaces into a space
plus nbsp — tagged text/html; charset=utf-8; the byte payload is the UTF-8
encoding of that string. -/
theorem c7_html_body_exact (status : Nat) (message phrase : String)
    (h : STATUS_CODES status = some phrase) :
    constructHtmlBody status message =
      { data :=
          "<!doctype html>\n<html lang=en>\n<head>\n<meta charset=utf-8>\n<title>"
          ++ escapeHtml phrase
          ++ "</title>\n</head>\n<body>\n"
          ++ String.mk (replaceDbl (replaceNl (escapeList message.data)))
          ++ "\n</body>\n"
      , type := "text/html; charset=utf-8" } := by
  have h1 :
      ("<!doctype html>\n<html lang=en>\n<head>\n<meta charset=utf-8>\n<title>"
        : String)
      = "<!doctype html>\n" ++ "<html lang=en>\n" ++ "<head>\n"
        ++ "<meta charset=utf-8>\n" ++ "<title>" := rfl
  have h2 : ("</title>\n</head>\n<body>\n" : String)
      = "</title>\n" ++ "</head>\n" ++ "<body>\n" := rfl
  have h3 : ("\n</body>\n" : String) = "\n" ++ "</body>\n" := rfl
  rw [h1, h2, h3]
  simp [constructHtmlBody, h, jsStr, strAppendAssoc]

/-- Claim C7 witness: byte-exact HTML rendering of a message exercising every
escape and transformation, at status 404. -/
theorem c7_html_body_exact_witness :
    STATUS_CODES 404 = some "Not Found" ∧
    constructHtmlBody 404 "a\nb  c<&\"\x27" =
      { data :=
          "<!doctype html>\n<html lang=en>\n<head>\n<meta charset=utf-8>\n<title>Not Found</title>\n</head>\n<body>\na<br>b &nbsp;c&lt;&amp;&quot;&#39;\n</body>\n"
      , type := "text/html; charset=utf-8" } :=
  ⟨rfl, (c7_html_body_exact 404 "a\nb  c<&\"\x27" "Not Found" rfl).trans (by decide)⟩

/-- Claim C8: for a HEAD request the write ends the response with an empty
body, while Content-Length is still the full rendered body's byte length and
the nosniff and Content-Type headers are still set from the rendered body;
and on either send path this write is the one the response receives. -/
theorem c8_head_request (req : Req) (status : Nat) (body : BodyPayload)
    (h : req.method = "HEAD") :
    writeAction req status body =
      { status := status
      , xContentTypeOptions := "nosniff"
      , contentType := body.type
      , contentLength := body.data.utf8ByteSize
      , bodyWritten := "" } ∧
    (send req status body).theWrite = some (writeAction req status body) := by
  constructor
  · simp [writeAction, h]
  · cases hf : req.finished <;> simp [send, SendResult.theWrite, hf]

/-- Claim C8 witness: a concrete HEAD request with an HTML body. -/
theorem c8_head_request_witness :
    writeAction reqHead 404 (constructHtmlBody 404 "Not Found") =
      { status := 404
      , xContentTypeOptions := "nosniff"
      , contentType := "text/html; charset=utf-8"
      , contentLength := (constructHtmlBody 404 "Not Found").data.utf8ByteSize
      , bodyWritten := "" } :=
  (c8_head_request reqHead 404 (constructHtmlBody 404 "Not Found") rfl).1

/-- Claim C9: with an error signal and a configured onerror callback, the
callback is scheduled exactly once, with the error, request and response
handles, on the deferred queue (never run synchronously as part of the
invocation's own effect) — including in the headers-already-sent case, where
the synchronous effect is only destroying the socket. -/
theorem c9_onerror_scheduled_once (opts : Options) (req : Req) (res : Res)
    (e : Err) (h : opts.onerror = true) :
    (invoke opts req res (some e)).deferred =
      ({ err := e, req := req, res := res } : OnerrorCall) :: [] ∧
    (res.headerSent = true →
      (invoke opts req res (some e)).effect = .destroySocket) := by
  constructor
  · cases hh : res.headerSent <;> simp [invoke, h, hh]
  · intro hh
    simp [invoke, hh]

/-- Claim C9 witness: the headers-already-sent case still defers the
callback exactly once with the handles. -/
theorem c9_onerror_scheduled_once_witness :
    (invoke { onerror := true } reqGetMissing resSent
        (some { status := 500 })).deferred =
      ({ err := { status := 500 }, req := reqGetMissing, res := resSent }
        : OnerrorCall) :: [] :=
  (c9_onerror_scheduled_once { onerror := true } reqGetMissing resSent
    { status := 500 } rfl).1

/-- Claim C10: a truthy explicit error status of at least 400 passes through
verbatim with no upper bound — 700 or 9999 become the response status — and
the diagnostics-disabled message is the reason-phrase table lookup for that
code, which is absent for out-of-range codes (so the JS-coerced text body is
the string undefined plus a newline). -/
theorem c10_status_no_upper_bound :
    (∀ (cs : Nat) (e : Err) (v : Nat), effExplicit e = some v → 400 ≤ v →
      errStatus cs e = v) ∧
    STATUS_CODES 700 = none ∧
    (∀ e : Err, errMsg {} 700 e = none) ∧
    writtenStatus (invoke {} reqGetMissing resFresh (some { status := 700 }))
      = some 700 ∧
    writtenBody (invoke {} reqGetMissing resFresh (some { status := 700 }))
      = some "undefined\n" ∧
    writtenStatus (invoke {} reqGetMissing resFresh
      (some { statusCode := 9999 })) = some 9999 := by
  refine ⟨?_, by decide, fun e => rfl, by decide, by decide, by decide⟩
  intro cs e v hv h4
  unfold effExplicit at hv
  by_cases h1 : e.status = 0
  · by_cases h2 : e.statusCode = 0
    · simp [h1, h2] at hv
    · have hv' : e.statusCode = v := by simpa [h1, h2] using hv
      have hv0 : ¬ v = 0 := by omega
      have hv400 : ¬ v < 400 := by omega
      simp [errStatus, h1, h2, hv', hv0, hv400]
  · have hv' : e.status = v := by simpa [h1] using hv
    have hv0 : ¬ v = 0 := by omega
    have hv400 : ¬ v < 400 := by omega
    simp [errStatus, h1, hv', hv0, hv400]

/-- Claim C10 witness: status 700 passes through verbatim. -/
theorem c10_status_no_upper_bound_witness :
    errStatus 200 { status := 700 } = 700 :=
  c10_status_no_upper_bound.1 200 { status := 700 } 700 (by decide) (by decide)

end Finalhandler
